import Mathlib

/-!
Verification of the woog-life scraper pipeline (src/main.py).

The development shallowly embeds the single-module Python program: the XML
document model used by BeautifulSoup lookups, the numeric conversions
(Python float() and int() on plain decimal literals), the timestamp
normalisation (datetime.fromtimestamp(ms / 1000).isoformat() with the
process running in UTC), the extraction functions get_water_information and
get_air_information, the forwarder send_data_to_backend, the alerter
send_telegram_alert, the orchestrator main, and the module entry guard that
determines the process exit code.

External effects are parameters: the sensor fetch, the XML parser
(BeautifulSoup itself is a third-party library; main is parameterised over
the parse function) and the backend network are oracle functions, and the
embedded functions additionally return the list of outbound PUT requests
issued, so that absence of network activity is a provable statement.
-/

namespace Scraper

/-- An XML node: either character data or an element with a name and a list
of child nodes.  A parsed document is a list of top-level nodes. -/
inductive Xml where
  | chardata (s : String) : Xml
  | elem (name : String) (children : List Xml) : Xml

compile_inductive% Xml

/-- Recursion worker for findIn.  The fuel argument only enables structural
recursion through the nested tree; it is inert: fuel at least the sizeOf of
the node list is never exhausted (findInF_congr), and findIn below always
supplies such fuel, so findIn satisfies the three direct recursion equations
findIn_nil, findIn_cons_chardata and findIn_cons_elem, which are the
BeautifulSoup preorder search. -/
def findInF (n : String) : Nat → List Xml → Option (List Xml)
  | _, [] => none
  | 0, _ :: _ => none
  | fuel + 1, Xml.chardata _ :: rest => findInF n fuel rest
  | fuel + 1, Xml.elem nm cs :: rest =>
    if nm = n then some cs
    else
      match findInF n fuel cs with
      | some t => some t
      | none => findInF n fuel rest

/-- Embeds BeautifulSoup find(name) called on a node list: the first element
(in document preorder) whose name matches, returned as its child list.
Character data is skipped; matching is case-sensitive and exact. -/
def findIn (n : String) (xs : List Xml) : Option (List Xml) :=
  findInF n (sizeOf xs) xs

/-- Recursion worker for textOfList; the fuel argument is inert exactly as
in findInF. -/
def textOfListF : Nat → List Xml → String
  | _, [] => ""
  | 0, _ :: _ => ""
  | fuel + 1, Xml.chardata s :: rest => s ++ textOfListF fuel rest
  | fuel + 1, Xml.elem _ cs :: rest => textOfListF fuel cs ++ textOfListF fuel rest

/-- Embeds Tag.text: the concatenation of all character data beneath a node
list, in document order. -/
def textOfList (xs : List Xml) : String :=
  textOfListF (sizeOf xs) xs

/-- An exact decimal number, mantissa scaled by a power of ten.  This is the
value a successful Python float() call produces on a plain decimal literal;
the literals exercised by the pipeline are short enough that binary64 and
this exact model agree on every stated equality and sign test. -/
structure DecimalValue where
  mantissa : Int
  scale : Nat
deriving Repr, DecidableEq

/-- The rational value of a decimal number. -/
def DecimalValue.toRat (d : DecimalValue) : ℚ :=
  (d.mantissa : ℚ) / (10 ^ d.scale : ℚ)

/-- Value of one decimal digit character. -/
def digitVal (c : Char) : Nat := c.toNat - 48

/-- Numeric value of a digit string (most significant first). -/
def natFromDigits (cs : List Char) : Nat :=
  cs.foldl (fun acc c => 10 * acc + digitVal c) 0

/-- Embeds Python float() on plain decimal literals: optional sign, integer
digits, optional fractional digits, at least one digit overall.  Returns
none where float() raises ValueError (in particular on non-numeric text). -/
def parseFloat (s : String) : Option DecimalValue :=
  let signed : Int × List Char :=
    match s.data with
    | '-' :: r => (-1, r)
    | '+' :: r => (1, r)
    | cs => (1, cs)
  let ip := signed.2.takeWhile Char.isDigit
  let rest := signed.2.dropWhile Char.isDigit
  match rest with
  | [] =>
    if ip.isEmpty then none
    else some ⟨signed.1 * (natFromDigits ip : ℤ), 0⟩
  | '.' :: fp =>
    if fp.all Char.isDigit ∧ ¬(ip.isEmpty ∧ fp.isEmpty) then
      some ⟨signed.1 * (natFromDigits (ip ++ fp) : ℤ), fp.length⟩
    else none
  | _ => none

/-- Embeds Python int() on plain decimal literals: optional sign followed by
at least one digit.  Returns none where int() raises ValueError. -/
def parseInt (s : String) : Option Int :=
  let signed : Int × List Char :=
    match s.data with
    | '-' :: r => (-1, r)
    | '+' :: r => (1, r)
    | cs => (1, cs)
  if signed.2.isEmpty ∨ ¬signed.2.all Char.isDigit then none
  else some (signed.1 * (natFromDigits signed.2 : ℤ))

/-- Left-pads the decimal representation of n with zeros to width w. -/
def padNum (w : Nat) (n : Nat) : String :=
  let s := toString n
  String.mk (List.replicate (w - s.length) '0') ++ s

/-- Civil date (year, month, day) from a count of days since 1970-01-01,
by the standard Gregorian era decomposition. -/
def civilFromDays (z0 : Int) : Int × Nat × Nat :=
  let z := z0 + 719468
  let era := z.ediv 146097
  let doe := (z.emod 146097).toNat
  let yoe := (doe - doe / 1460 + doe / 36524 - doe / 146096) / 365
  let doy := doe - (365 * yoe + yoe / 4 - yoe / 100)
  let mp := (5 * doy + 2) / 153
  let d := doy - (153 * mp + 2) / 5 + 1
  let m := if mp < 10 then mp + 3 else mp - 9
  ((yoe : Int) + era * 400 + (if m ≤ 2 then 1 else 0), m, d)

/-- Embeds datetime.fromtimestamp(ms / 1000).isoformat() for an integer
count ms of milliseconds since the Unix epoch, with the process clock in
UTC: an ISO-8601 combined date-time, microseconds shown only when nonzero
(here they are a whole number of milliseconds). -/
def isoFromMillis (ms : Int) : String :=
  let micros := ms * 1000
  let secAll := micros.ediv 1000000
  let micro := (micros.emod 1000000).toNat
  let days := secAll.ediv 86400
  let sod := (secAll.emod 86400).toNat
  let ymd := civilFromDays days
  let datePart :=
    padNum 4 ymd.1.toNat ++ "-" ++ padNum 2 ymd.2.1 ++ "-" ++ padNum 2 ymd.2.2
  let timePart :=
    padNum 2 (sod / 3600) ++ ":" ++ padNum 2 (sod % 3600 / 60) ++ ":" ++
      padNum 2 (sod % 60)
  let fracPart := if micro = 0 then "" else "." ++ padNum 6 micro
  datePart ++ "T" ++ timePart ++ fracPart

/-- The environment variables the module reads at import time, each possibly
absent. -/
structure Env where
  woogTemperatureUrl : Option String
  backendUrl : Option String
  backendPath : Option String
  woogUuid : Option String
  apiKey : Option String
deriving Repr, DecidableEq

/-- Python truthiness test `not x` for an Optional[str]: true when the
variable is absent (None) or the empty string. -/
def strFalsy : Option String → Bool
  | none => true
  | some s => s = ""

/-- Embeds `os.getenv(name) or default`: the default is used when the
variable is absent or empty. -/
def orDefault (o : Option String) (d : String) : String :=
  match o with
  | none => d
  | some s => if s = "" then d else s

/-- Embeds Python str() applied to an Optional[str], as an f-string does:
None renders as the four characters None. -/
def pyStr : Option String → String
  | none => "None"
  | some s => s

/-- The module constant WOOG_TEMPERATURE_URL. -/
def woogTemperatureUrl (env : Env) : String :=
  orDefault env.woogTemperatureUrl "https://woog.iot.service.itrm.de/?accesstoken=LQ8MXn"

/-- The module constant BACKEND_URL. -/
def backendUrl (env : Env) : String :=
  orDefault env.backendUrl "https://api.woog.life"

/-- The module constant BACKEND_PATH. -/
def backendPath (env : Env) : String :=
  orDefault env.backendPath "lake/\x7b\x7d/temperature"

/-- A reading as returned by get_water_information / get_air_information:
the pair (iso_time, temperature).  The timestamp component is optional
because the code assigns the result of the ts lookup to it without a None
check. -/
structure Reading where
  ts : Option String
  temperature : DecimalValue
deriving Repr, DecidableEq

/-- Outcome of one extraction function, one constructor per return site of
the Python function, each non-ok constructor carrying the error log that
precedes its `return`: the element-absent log, the float ValueError log, the
temperature-is-None log, and the ts ValueError log.  The Python value is
None for every non-ok constructor (see toOption). -/
inductive ExtractResult where
  | missingOuter : ExtractResult
  | invalidValue : ExtractResult
  | valueNone : ExtractResult
  | invalidTs : ExtractResult
  | ok (r : Reading) : ExtractResult
deriving Repr, DecidableEq

/-- The Optional value the Python extraction function actually returns. -/
def ExtractResult.toOption : ExtractResult → Option Reading
  | .ok r => some r
  | _ => none

/-- Embeds get_tag_text_from_xml over the child list of a tag: find the
named tag; a falsy tag (absent, or present with no contents, since bs4 Tag
defines len as the number of contents) yields None; otherwise the conversion
runs on the tag text.  Except models the ValueError the conversion may
raise, which propagates to the caller. -/
def get_tag_text_from_xml {α : Type} (children : List Xml) (name : String)
    (conv : String → Option α) : Except Unit (Option α) :=
  match findIn name children with
  | none => Except.ok none
  | some cs =>
    if cs.isEmpty then Except.ok none
    else
      match conv (textOfList cs) with
      | some v => Except.ok (some v)
      | none => Except.error ()

/-- The ts conversion lambda: int(x) then fromtimestamp(.. / 1000) then
isoformat.  None models the ValueError from int(). -/
def tsConversion (x : String) : Option String :=
  (parseInt x).map isoFromMillis

/-- Embeds get_water_information: find Water_Temperature (falsy test, so an
element with no contents counts as absent), extract value via float()
catching ValueError, reject a None temperature, then extract ts via the
timestamp lambda catching ValueError.  The ts result is NOT checked against
None before the pair is returned, exactly as in the source. -/
def get_water_information (soup : List Xml) : ExtractResult :=
  match findIn "Water_Temperature" soup with
  | none => .missingOuter
  | some wt =>
    if wt.isEmpty then .missingOuter
    else
      match get_tag_text_from_xml wt "value" parseFloat with
      | Except.error () => .invalidValue
      | Except.ok none => .valueNone
      | Except.ok (some temperature) =>
        match get_tag_text_from_xml wt "ts" tsConversion with
        | Except.error () => .invalidTs
        | Except.ok isoTime => .ok ⟨isoTime, temperature⟩

/-- Embeds get_air_information, a verbatim twin of get_water_information
over the Air_Temperature element. -/
def get_air_information (soup : List Xml) : ExtractResult :=
  match findIn "Air_Temperature" soup with
  | none => .missingOuter
  | some at_ =>
    if at_.isEmpty then .missingOuter
    else
      match get_tag_text_from_xml at_ "value" parseFloat with
      | Except.error () => .invalidValue
      | Except.ok none => .valueNone
      | Except.ok (some temperature) =>
        match get_tag_text_from_xml at_ "ts" tsConversion with
        | Except.error () => .invalidTs
        | Except.ok isoTime => .ok ⟨isoTime, temperature⟩

/-- An HTTP response; ok is the requests attribute status_code < 400. -/
structure HttpResponse where
  status : Nat
  content : String
deriving Repr, DecidableEq

/-- requests Response.ok. -/
def HttpResponse.ok (r : HttpResponse) : Bool := r.status < 400

/-- Outcome of one PUT attempt as seen by the except clause of
send_data_to_backend: either a response, or one of the three caught
connection-level exceptions (requests ConnectionError, socket.gaierror,
urllib3 MaxRetryError). -/
inductive NetResult where
  | resp (r : HttpResponse) : NetResult
  | connError : NetResult

/-- The PUT request send_data_to_backend issues: target URL, the value of
the Authorization header, and the JSON body fields temperature and time
(time is null when the reading carries no timestamp). -/
structure PutRequest where
  url : String
  authHeader : String
  temperature : DecimalValue
  time : Option String
deriving Repr, DecidableEq

/-- Substitutes the first brace-pair placeholder in a character list by the
given string, as str.format does with a single positional argument (the
configured path template contains exactly one placeholder). -/
def substPlaceholder : List Char → String → List Char
  | [], _ => []
  | '\x7b' :: '\x7d' :: rest, v => v.data ++ rest
  | c :: rest, v => c :: substPlaceholder rest v

/-- Embeds template.format(value) for the single-placeholder path
template. -/
def pyFormat (template : String) (value : String) : String :=
  String.mk (substPlaceholder template.data value)

/-- The URL built in send_data_to_backend: BACKEND_PATH.format(WOOG_UUID)
joined to BACKEND_URL with a slash. -/
def backendTargetUrl (env : Env) : String :=
  backendUrl env ++ "/" ++ pyFormat (backendPath env) (pyStr env.woogUuid)

/-- The request send_data_to_backend builds from the water reading: headers
Authorization Bearer API_KEY and body temperature/time. -/
def mkPutRequest (env : Env) (water : Reading) : PutRequest :=
  { url := backendTargetUrl env
    authHeader := "Bearer " ++ pyStr env.apiKey
    temperature := water.temperature
    time := water.ts }

/-- The comparison temperature <= 0 performed by send_data_to_backend,
expressed on the exact decimal: the value is nonpositive exactly when the
mantissa is (DecimalValue.nonpos_iff below). -/
def DecimalValue.nonpos (d : DecimalValue) : Bool := d.mantissa ≤ 0

/-- Embeds send_data_to_backend: build the URL; destructure both readings
(the air reading is never used further); if the water temperature is <= 0
return None with the manual-approval message without touching the network;
otherwise PUT the body, catching the three connection-level exceptions by
returning None with the URL.  The second result component is the list of
requests actually issued. -/
def send_data_to_backend (env : Env) (net : PutRequest → NetResult)
    (water : Reading) (air : Reading) :
    (Option HttpResponse × String) × List PutRequest :=
  let _ := air
  if water.temperature.nonpos then
    ((none, "water_temperature is <= 0, please approve this manually."), [])
  else
    let req := mkPutRequest env water
    match net req with
    | NetResult.resp r => ((some r, backendTargetUrl env), [req])
    | NetResult.connError => ((none, backendTargetUrl env), [req])

/-- Outcome of one fetch of the sensor page as seen by requests.get: either
a decoded body, or a network error (which get_website does not catch). -/
inductive FetchResult where
  | ok (content : String) : FetchResult
  | netError : FetchResult

/-- Embeds get_website: GET the configured URL and return (content, True).
The success flag is the literal True of the source; a network error from
requests.get is not caught and propagates (the Except error case). -/
def get_website (fetch : String → FetchResult) (env : Env) :
    Except Unit (String × Bool) :=
  match fetch (woogTemperatureUrl env) with
  | FetchResult.ok content => Except.ok (content, true)
  | FetchResult.netError => Except.error ()

/-- Result of main, one constructor per return site: the early-return
failures carry the data their message interpolates (main returns a
(success, message) pair; success is true exactly for the success
constructor).  fetchFailed is the branch behind `if not success`;
waterFailed and airFailed are the branches for a falsy extraction result
(None — a tuple, even (None, 0.0), is truthy); forwardFailed is the branch
for a missing or non-ok response, carrying the reading and the second
component returned by send_data_to_backend. -/
inductive MainResult where
  | fetchFailed (content : String) : MainResult
  | waterFailed (soup : List Xml) : MainResult
  | airFailed (soup : List Xml) : MainResult
  | forwardFailed (water : Reading) (urlOrMsg : String) : MainResult
  | success : MainResult

/-- Embeds main: fetch, parse, extract water and air, forward, report.  The
parse function stands for BeautifulSoup; the Except error is an uncaught
exception escaping main; the list collects the PUT requests issued. -/
def main (env : Env) (fetch : String → FetchResult) (parse : String → List Xml)
    (net : PutRequest → NetResult) :
    Except Unit (MainResult × List PutRequest) :=
  match get_website fetch env with
  | Except.error () => Except.error ()
  | Except.ok (content, success) =>
    if success = false then Except.ok (MainResult.fetchFailed content, [])
    else
      let soup := parse content
      match (get_water_information soup).toOption with
      | none => Except.ok (MainResult.waterFailed soup, [])
      | some water =>
        match (get_air_information soup).toOption with
        | none => Except.ok (MainResult.airFailed soup, [])
        | some air =>
          match send_data_to_backend env net water air with
          | ((none, urlOrMsg), reqs) =>
            Except.ok (MainResult.forwardFailed water urlOrMsg, reqs)
          | ((some r, urlOrMsg), reqs) =>
            if r.ok = false then
              Except.ok (MainResult.forwardFailed water urlOrMsg, reqs)
            else Except.ok (MainResult.success, reqs)

/-- One Telegram message: recipient chat id and text. -/
structure TgMessage where
  chatId : String
  text : String
deriving Repr, DecidableEq

/-- The configuration errors send_telegram_alert can log. -/
inductive AlertLog where
  | tokenMissing : AlertLog
  | emptyChatlist : AlertLog
deriving Repr, DecidableEq

/-- Embeds send_telegram_alert: with a falsy token, log and return without
sending; with an empty chatlist, log the misconfiguration but fall through
to the (empty) send loop; otherwise send one message per recipient with the
failure reason interpolated.  The function never raises or exits: it returns
the messages sent and the configuration errors logged. -/
def send_telegram_alert (message : String) (token : Option String)
    (chatlist : List String) : List TgMessage × List AlertLog :=
  if strFalsy token then ([], [AlertLog.tokenMissing])
  else
    let logs := if chatlist.isEmpty then [AlertLog.emptyChatlist] else []
    (chatlist.map (fun user => ⟨user, "Error while executing: " ++ message⟩), logs)

/-- True exactly when main returned (True, message), i.e. the pipeline
succeeded. -/
def mainSucceeded : Except Unit (MainResult × List PutRequest) → Bool
  | Except.ok (MainResult.success, _) => true
  | _ => false

/-- PUT requests issued during a run of main (none when main died on an
uncaught exception before reaching the forwarder). -/
def mainPuts : Except Unit (MainResult × List PutRequest) → List PutRequest
  | Except.ok (_, reqs) => reqs
  | Except.error () => []

/-- Embeds the module entry guard: if WOOG_UUID is falsy, log and fall off
the end of the module (exit status 0, nothing fetched or sent); same when
API_KEY is falsy; otherwise run main.  On (False, message) the guard sends
the Telegram alert and calls sys.exit(1); on success it falls off the end
(exit status 0).  An exception escaping main terminates the interpreter
with a traceback and exit status 1.  The result is the exit status, the
URLs fetched with GET, and the PUT requests issued. -/
def moduleRun (env : Env) (fetch : String → FetchResult)
    (parse : String → List Xml) (net : PutRequest → NetResult) :
    Nat × List String × List PutRequest :=
  if strFalsy env.woogUuid then (0, [], [])
  else if strFalsy env.apiKey then (0, [], [])
  else
    match main env fetch parse net with
    | Except.error () => (1, [woogTemperatureUrl env], [])
    | Except.ok (MainResult.success, reqs) => (0, [woogTemperatureUrl env], reqs)
    | Except.ok (_, reqs) => (1, [woogTemperatureUrl env], reqs)

/-- A parse oracle returning a fixed document for any input text. -/
def constParse (doc : List Xml) : String → List Xml := fun _ => doc

/-- A network oracle answering every PUT with the same response. -/
def constNet (r : HttpResponse) : PutRequest → NetResult :=
  fun _ => NetResult.resp r

/-- A fetch oracle returning a fixed body for any URL. -/
def constFetch (content : String) : String → FetchResult :=
  fun _ => FetchResult.ok content

/-- An environment with both required credentials set. -/
def sampleEnv : Env :=
  { woogTemperatureUrl := none, backendUrl := none, backendPath := none
    woogUuid := some "uuid1", apiKey := some "key1" }

/-- Children of the scenario water element: value 18.5, ts 1700000000000. -/
def waterChildren : List Xml :=
  [Xml.elem "value" [Xml.chardata "18.5"],
   Xml.elem "ts" [Xml.chardata "1700000000000"]]

/-- The water element of the end-to-end scenario:
Water_Temperature with value 18.5 and ts 1700000000000. -/
def waterElem : Xml := Xml.elem "Water_Temperature" waterChildren

/-- The parse of the spec scenario input
Water_Temperature(value 18.5, ts 1700000000000) with no Air_Temperature. -/
def waterOnlyDoc : List Xml := [waterElem]

/-- Children of a valid air element: value 12.5, ts 1700000000000. -/
def airChildren : List Xml :=
  [Xml.elem "value" [Xml.chardata "12.5"],
   Xml.elem "ts" [Xml.chardata "1700000000000"]]

/-- A valid Air_Temperature element (value 12.5, ts 1700000000000). -/
def airElem : Xml := Xml.elem "Air_Temperature" airChildren

/-- The scenario document completed with a valid Air_Temperature sibling
under one root element. -/
def fullDoc : List Xml := [Xml.elem "root" [waterElem, airElem]]

/-- Children of a water element with a valid value but no ts element. -/
def noTsWaterChildren : List Xml := [Xml.elem "value" [Xml.chardata "18.5"]]

/-- A document whose Water_Temperature has a valid value but no ts element,
next to a fully valid Air_Temperature. -/
def noTsDoc : List Xml :=
  [Xml.elem "root"
    [Xml.elem "Water_Temperature" noTsWaterChildren, airElem]]

/-- Children of a water element with value 0.0 and a valid ts. -/
def zeroTempWaterChildren : List Xml :=
  [Xml.elem "value" [Xml.chardata "0.0"],
   Xml.elem "ts" [Xml.chardata "1700000000000"]]

/-- The full document with water value 0.0 instead of 18.5. -/
def zeroTempDoc : List Xml :=
  [Xml.elem "root"
    [Xml.elem "Water_Temperature" zeroTempWaterChildren, airElem]]

/-- Children of a water element whose value text is not numeric. -/
def badValueWaterChildren : List Xml :=
  [Xml.elem "value" [Xml.chardata "abc"],
   Xml.elem "ts" [Xml.chardata "1700000000000"]]

/-- The full document with the water value replaced by the non-numeric text
abc. -/
def badValueDoc : List Xml :=
  [Xml.elem "root"
    [Xml.elem "Water_Temperature" badValueWaterChildren, airElem]]

/-- A document with no Water_Temperature element at all. -/
def noWaterDoc : List Xml := [Xml.elem "root" [airElem]]

/-- A fetch oracle whose network call fails. -/
def netErrorFetch : String → FetchResult := fun _ => FetchResult.netError

/-- A network oracle raising a connection-level error on every PUT. -/
def connErrorNet : PutRequest → NetResult := fun _ => NetResult.connError

/-- The environment with the LARGE_WOOG_UUID credential absent. -/
def missingUuidEnv : Env := { sampleEnv with woogUuid := none }

/-- The reading the scenario water element normalises to. -/
def scenarioWaterReading : Reading := ⟨some "2023-11-14T22:13:20", ⟨185, 1⟩⟩

/-- The reading the sample air element normalises to. -/
def scenarioAirReading : Reading := ⟨some "2023-11-14T22:13:20", ⟨125, 1⟩⟩

/-- The PUT request the forwarder issues for the scenario water reading
under sampleEnv. -/
def scenarioPutRequest : PutRequest :=
  { url := "https://api.woog.life/lake/uuid1/temperature"
    authHeader := "Bearer key1"
    temperature := ⟨185, 1⟩
    time := some "2023-11-14T22:13:20" }

end Scraper

namespace Scraper

/-! Inertness of the fuel arguments: fuel at least sizeOf is never
exhausted, and findIn / textOfList satisfy the direct recursion equations
of the BeautifulSoup preorder search. -/

theorem Xml.one_le_sizeOf (x : Xml) : 1 ≤ sizeOf x := by
  cases x with
  | chardata s => simp
  | elem nm cs =>
    simp
    omega

theorem findInF_congr (n : String) :
    ∀ fuel fuel' xs, sizeOf xs ≤ fuel → sizeOf xs ≤ fuel' →
      findInF n fuel xs = findInF n fuel' xs := by
  intro fuel
  induction fuel with
  | zero =>
    intro fuel' xs h _
    cases xs <;> simp at h
  | succ fuel ih =>
    intro fuel' xs h h'
    cases xs with
    | nil => cases fuel' <;> rfl
    | cons x rest =>
      cases fuel' with
      | zero => simp at h'
      | succ fuel' =>
        cases x with
        | chardata s =>
          show findInF n fuel rest = findInF n fuel' rest
          simp only [List.cons.sizeOf_spec, Xml.chardata.sizeOf_spec] at h h'
          exact ih fuel' rest (by omega) (by omega)
        | elem nm cs =>
          simp only [List.cons.sizeOf_spec, Xml.elem.sizeOf_spec] at h h'
          show (if nm = n then some cs else
              match findInF n fuel cs with
              | some t => some t
              | none => findInF n fuel rest) =
            (if nm = n then some cs else
              match findInF n fuel' cs with
              | some t => some t
              | none => findInF n fuel' rest)
          rw [ih fuel' cs (by omega) (by omega),
            ih fuel' rest (by omega) (by omega)]

theorem findIn_nil (n : String) : findIn n [] = none := rfl

theorem findIn_cons_chardata (n s : String) (rest : List Xml) :
    findIn n (Xml.chardata s :: rest) = findIn n rest := by
  have hk : sizeOf (Xml.chardata s :: rest) = (sizeOf s + sizeOf rest + 1) + 1 := by
    simp
    omega
  unfold findIn
  rw [hk]
  show findInF n (sizeOf s + sizeOf rest + 1) rest = findInF n (sizeOf rest) rest
  exact findInF_congr n _ _ rest (by omega) (by omega)

theorem findIn_cons_elem (n nm : String) (cs rest : List Xml) :
    findIn n (Xml.elem nm cs :: rest) =
      (if nm = n then some cs
       else
         match findIn n cs with
         | some t => some t
         | none => findIn n rest) := by
  have hk : sizeOf (Xml.elem nm cs :: rest) =
      (sizeOf nm + sizeOf cs + sizeOf rest + 1) + 1 := by
    simp
    omega
  unfold findIn
  rw [hk]
  show (if nm = n then some cs else
      match findInF n (sizeOf nm + sizeOf cs + sizeOf rest + 1) cs with
      | some t => some t
      | none => findInF n (sizeOf nm + sizeOf cs + sizeOf rest + 1) rest) = _
  rw [findInF_congr n _ (sizeOf cs) cs (by omega) (by omega),
    findInF_congr n _ (sizeOf rest) rest (by omega) (by omega)]

theorem textOfListF_congr :
    ∀ fuel fuel' xs, sizeOf xs ≤ fuel → sizeOf xs ≤ fuel' →
      textOfListF fuel xs = textOfListF fuel' xs := by
  intro fuel
  induction fuel with
  | zero =>
    intro fuel' xs h _
    cases xs <;> simp at h
  | succ fuel ih =>
    intro fuel' xs h h'
    cases xs with
    | nil => cases fuel' <;> rfl
    | cons x rest =>
      cases fuel' with
      | zero => simp at h'
      | succ fuel' =>
        cases x with
        | chardata s =>
          show s ++ textOfListF fuel rest = s ++ textOfListF fuel' rest
          simp only [List.cons.sizeOf_spec, Xml.chardata.sizeOf_spec] at h h'
          rw [ih fuel' rest (by omega) (by omega)]
        | elem nm cs =>
          simp only [List.cons.sizeOf_spec, Xml.elem.sizeOf_spec] at h h'
          show textOfListF fuel cs ++ textOfListF fuel rest =
            textOfListF fuel' cs ++ textOfListF fuel' rest
          rw [ih fuel' cs (by omega) (by omega),
            ih fuel' rest (by omega) (by omega)]

theorem textOfList_nil : textOfList [] = "" := rfl

theorem textOfList_cons_chardata (s : String) (rest : List Xml) :
    textOfList (Xml.chardata s :: rest) = s ++ textOfList rest := by
  have hk : sizeOf (Xml.chardata s :: rest) = (sizeOf s + sizeOf rest + 1) + 1 := by
    simp
    omega
  unfold textOfList
  rw [hk]
  show s ++ textOfListF (sizeOf s + sizeOf rest + 1) rest = _
  rw [textOfListF_congr _ (sizeOf rest) rest (by omega) (by omega)]

theorem textOfList_cons_elem (nm : String) (cs rest : List Xml) :
    textOfList (Xml.elem nm cs :: rest) = textOfList cs ++ textOfList rest := by
  have hk : sizeOf (Xml.elem nm cs :: rest) =
      (sizeOf nm + sizeOf cs + sizeOf rest + 1) + 1 := by
    simp
    omega
  unfold textOfList
  rw [hk]
  show textOfListF (sizeOf nm + sizeOf cs + sizeOf rest + 1) cs ++
      textOfListF (sizeOf nm + sizeOf cs + sizeOf rest + 1) rest = _
  rw [textOfListF_congr _ (sizeOf cs) cs (by omega) (by omega),
    textOfListF_congr _ (sizeOf rest) rest (by omega) (by omega)]

end Scraper

namespace Scraper

/-- The Boolean gate in send_data_to_backend agrees with the numeric
comparison temperature <= 0 on exact values. -/
theorem DecimalValue.nonpos_iff (d : DecimalValue) :
    d.nonpos = true ↔ d.toRat ≤ 0 := by
  unfold DecimalValue.nonpos DecimalValue.toRat
  rw [decide_eq_true_eq, div_nonpos_iff]
  constructor
  · intro h
    right
    exact ⟨Int.cast_nonpos.mpr h, by positivity⟩
  · rintro (⟨_, h2⟩ | ⟨h1, _⟩)
    · exfalso
      have hpos : (0 : ℚ) < 10 ^ d.scale := by positivity
      linarith
    · exact Int.cast_nonpos.mp h1

/-- Contrapositive form of DecimalValue.nonpos_iff. -/
theorem DecimalValue.nonpos_eq_false_iff (d : DecimalValue) :
    d.nonpos = false ↔ 0 < d.toRat := by
  rw [show (d.nonpos = false) ↔ ¬(d.nonpos = true) by simp,
    DecimalValue.nonpos_iff, not_le]

end Scraper

namespace Scraper

/-- C1: the claimed invariant fails in the code: for the document whose
Water_Temperature carries a valid value 18.5 but no ts element (next to a
fully valid Air_Temperature), get_water_information returns the
partially-populated reading (None, 18.5) because the ts lookup result is
never checked against None, the truthy-tuple test in main lets it through,
and send_data_to_backend is invoked and issues a PUT whose time field is
null: the pipeline does not short-circuit to failure. -/
theorem c1_partial_reading_reaches_forwarder :
    get_water_information noTsDoc = ExtractResult.ok ⟨none, ⟨185, 1⟩⟩ ∧
    main sampleEnv (constFetch "x") (constParse noTsDoc) (constNet ⟨200, "ok"⟩) =
      Except.ok (MainResult.success,
        [{ url := "https://api.woog.life/lake/uuid1/temperature"
           authHeader := "Bearer key1"
           temperature := ⟨185, 1⟩
           time := none }]) :=
  ⟨rfl, rfl⟩

/-- C2 counterexample: with LARGE_WOOG_UUID absent (and everything else in
place), the module entry guard only logs: the process falls off the end of
the module and exits with status 0, not 1, performing no fetch and no
forward. -/
theorem c2_missing_credential_exits_zero :
    strFalsy missingUuidEnv.woogUuid = true ∧
    moduleRun missingUuidEnv (constFetch "x") (constParse fullDoc)
      (constNet ⟨200, "ok"⟩) = (0, [], []) :=
  ⟨rfl, rfl⟩

/-- C2 amended: when a required credential (LARGE_WOOG_UUID or API_KEY) is
falsy at startup the process aborts before any network activity but exits
0; with both credentials present the exit code is 0 exactly when the
pipeline succeeds and 1 for any pipeline failure (including an uncaught
exception). -/
theorem c2_exit_code_spec (env : Env) (fetch : String → FetchResult)
    (parse : String → List Xml) (net : PutRequest → NetResult) :
    (strFalsy env.woogUuid = true ∨ strFalsy env.apiKey = true →
      moduleRun env fetch parse net = (0, [], [])) ∧
    (strFalsy env.woogUuid = false → strFalsy env.apiKey = false →
      (moduleRun env fetch parse net).1 =
        if mainSucceeded (main env fetch parse net) then 0 else 1) := by
  constructor
  · intro h
    by_cases hw : strFalsy env.woogUuid = true
    · simp [moduleRun, hw]
    · have ha : strFalsy env.apiKey = true := by
        rcases h with h | h
        · exact absurd h hw
        · exact h
      simp [moduleRun, hw, ha]
  · intro h1 h2
    simp only [moduleRun, h1, h2, Bool.false_eq_true, if_false]
    cases hm : main env fetch parse net with
    | error e =>
      cases e
      simp [mainSucceeded]
    | ok p =>
      obtain ⟨r, reqs⟩ := p
      cases r <;> simp [mainSucceeded]

/-- C2 amended, witnessed at concrete inputs: the missing-credential run
exits 0 with no network activity, and a credentialed successful run exits
0. -/
theorem c2_exit_code_spec_witness :
    moduleRun missingUuidEnv (constFetch "x") (constParse fullDoc)
      (constNet ⟨200, "ok"⟩) = (0, [], []) ∧
    (moduleRun sampleEnv (constFetch "x") (constParse fullDoc)
      (constNet ⟨200, "ok"⟩)).1 =
      (if mainSucceeded (main sampleEnv (constFetch "x") (constParse fullDoc)
        (constNet ⟨200, "ok"⟩)) then 0 else 1) :=
  ⟨(c2_exit_code_spec missingUuidEnv (constFetch "x") (constParse fullDoc)
      (constNet ⟨200, "ok"⟩)).1 (Or.inl rfl),
   (c2_exit_code_spec sampleEnv (constFetch "x") (constParse fullDoc)
      (constNet ⟨200, "ok"⟩)).2 rfl rfl⟩

end Scraper

namespace Scraper

/-- C3 counterexample: on exactly the scenario input (a document whose only
element is the Water_Temperature block), the pipeline does not reach the
forwarder and does not exit 0: get_air_information finds no Air_Temperature,
main halts at the air check with no PUT issued, and the process exits 1. -/
theorem c3_scenario_halts_on_missing_air :
    main sampleEnv (constFetch "x") (constParse waterOnlyDoc)
      (constNet ⟨200, "ok"⟩) =
      Except.ok (MainResult.airFailed waterOnlyDoc, []) ∧
    moduleRun sampleEnv (constFetch "x") (constParse waterOnlyDoc)
      (constNet ⟨200, "ok"⟩) =
      (1, [woogTemperatureUrl sampleEnv], []) :=
  ⟨rfl, rfl⟩

/-- C3 amended: extraction on the scenario water element produces the
Reading (2023-11-14T22:13:20, 18.5) exactly as claimed, with 18.5 the
parsed float value and the time the ISO-8601 rendering of 1700000000000 ms
since the epoch; however the scenario document as given halts at the air
check with exit 1 (see the counterexample), and the claimed forward body
{temperature 18.5, time 2023-11-14T22:13:20} with a 200 OK response and
exit 0 holds once the document also carries a valid Air_Temperature
element. -/
theorem c3_scenario_amended :
    get_water_information waterOnlyDoc = ExtractResult.ok scenarioWaterReading ∧
    scenarioWaterReading.ts = some "2023-11-14T22:13:20" ∧
    scenarioWaterReading.temperature.toRat = 37 / 2 ∧
    isoFromMillis 1700000000000 = "2023-11-14T22:13:20" ∧
    main sampleEnv (constFetch "x") (constParse fullDoc) (constNet ⟨200, "ok"⟩) =
      Except.ok (MainResult.success, [scenarioPutRequest]) ∧
    scenarioPutRequest.temperature.toRat = 37 / 2 ∧
    scenarioPutRequest.time = some "2023-11-14T22:13:20" ∧
    moduleRun sampleEnv (constFetch "x") (constParse fullDoc)
      (constNet ⟨200, "ok"⟩) =
      (0, [woogTemperatureUrl sampleEnv], [scenarioPutRequest]) :=
  ⟨rfl, rfl, by norm_num [DecimalValue.toRat, scenarioWaterReading], rfl, rfl,
   by norm_num [DecimalValue.toRat, scenarioPutRequest], rfl, rfl⟩

end Scraper

namespace Scraper

/-- Orchestration helper: when fetch succeeds and water extraction fails,
main halts at the water check with no PUT issued. -/
theorem main_waterFailed (env : Env) (fetch : String → FetchResult)
    (parse : String → List Xml) (net : PutRequest → NetResult)
    (content : String)
    (hf : fetch (woogTemperatureUrl env) = FetchResult.ok content)
    (hw : (get_water_information (parse content)).toOption = none) :
    main env fetch parse net =
      Except.ok (MainResult.waterFailed (parse content), []) := by
  simp [main, get_website, hf, hw]

/-- Orchestration helper: when fetch succeeds, both extractions succeed and
the forwarder returns no response, main reports the forward failure with
the second component returned by send_data_to_backend. -/
theorem main_forwardFailed (env : Env) (fetch : String → FetchResult)
    (parse : String → List Xml) (net : PutRequest → NetResult)
    (content : String) (water air : Reading) (msg : String)
    (reqs : List PutRequest)
    (hf : fetch (woogTemperatureUrl env) = FetchResult.ok content)
    (hw : get_water_information (parse content) = ExtractResult.ok water)
    (ha : get_air_information (parse content) = ExtractResult.ok air)
    (hs : send_data_to_backend env net water air = ((none, msg), reqs)) :
    main env fetch parse net =
      Except.ok (MainResult.forwardFailed water msg, reqs) := by
  simp [main, get_website, hf, hw, ha, hs, ExtractResult.toOption]

end Scraper

namespace Scraper

/-- C4: a reading whose water temperature is nonpositive (in particular
exactly 0.0) is still constructed and passes every truthiness check in the
pipeline — main reaches the forwarder with it — but send_data_to_backend
refuses: it issues no PUT request at all (for every network oracle) and
returns no response, with the manual-approval message in place of the
URL. -/
theorem c4_nonpositive_temperature_gated (env : Env)
    (fetch : String → FetchResult) (parse : String → List Xml)
    (net : PutRequest → NetResult) (content : String) (water air : Reading)
    (hf : fetch (woogTemperatureUrl env) = FetchResult.ok content)
    (hw : get_water_information (parse content) = ExtractResult.ok water)
    (ha : get_air_information (parse content) = ExtractResult.ok air)
    (ht : water.temperature.toRat ≤ 0) :
    send_data_to_backend env net water air =
      ((none, "water_temperature is <= 0, please approve this manually."), []) ∧
    main env fetch parse net =
      Except.ok (MainResult.forwardFailed water
        "water_temperature is <= 0, please approve this manually.", []) := by
  have hnp : water.temperature.nonpos = true :=
    (DecimalValue.nonpos_iff water.temperature).mpr ht
  have hsend : send_data_to_backend env net water air =
      ((none, "water_temperature is <= 0, please approve this manually."), []) := by
    simp [send_data_to_backend, hnp]
  exact ⟨hsend,
    main_forwardFailed env fetch parse net content water air _ _ hf hw ha hsend⟩

/-- C4 witnessed on the document with water value 0.0: the reading is
constructed, reaches the forwarder, and the forwarder answers with the
manual-approval message and an empty request list. -/
theorem c4_nonpositive_temperature_gated_witness :
    send_data_to_backend sampleEnv (constNet ⟨200, "ok"⟩)
      ⟨some "2023-11-14T22:13:20", ⟨0, 1⟩⟩ scenarioAirReading =
      ((none, "water_temperature is <= 0, please approve this manually."), []) ∧
    main sampleEnv (constFetch "x") (constParse zeroTempDoc)
      (constNet ⟨200, "ok"⟩) =
      Except.ok (MainResult.forwardFailed ⟨some "2023-11-14T22:13:20", ⟨0, 1⟩⟩
        "water_temperature is <= 0, please approve this manually.", []) :=
  c4_nonpositive_temperature_gated sampleEnv (constFetch "x")
    (constParse zeroTempDoc) (constNet ⟨200, "ok"⟩) "x"
    ⟨some "2023-11-14T22:13:20", ⟨0, 1⟩⟩ scenarioAirReading rfl rfl rfl
    (by norm_num [DecimalValue.toRat])

/-- C5: for every forward attempt (water temperature positive, so the gate
does not fire) in which the PUT raises one of the three caught
connection-level errors, send_data_to_backend returns normally — no
exception escapes, by totality of the embedded function — with no response
and the attempted target URL as diagnostic. -/
theorem c5_connection_error_caught (env : Env) (net : PutRequest → NetResult)
    (water air : Reading)
    (hpos : 0 < water.temperature.toRat)
    (hconn : net (mkPutRequest env water) = NetResult.connError) :
    send_data_to_backend env net water air =
      ((none, backendTargetUrl env), [mkPutRequest env water]) := by
  have hnp : water.temperature.nonpos = false :=
    (DecimalValue.nonpos_eq_false_iff water.temperature).mpr hpos
  simp [send_data_to_backend, hnp, hconn]

/-- C5 witnessed with a network oracle that refuses every connection: the
scenario reading yields no response paired with the sampleEnv target
URL. -/
theorem c5_connection_error_caught_witness :
    send_data_to_backend sampleEnv connErrorNet scenarioWaterReading
      scenarioAirReading =
      ((none, backendTargetUrl sampleEnv),
        [mkPutRequest sampleEnv scenarioWaterReading]) :=
  c5_connection_error_caught sampleEnv connErrorNet scenarioWaterReading
    scenarioAirReading (by norm_num [DecimalValue.toRat, scenarioWaterReading])
    rfl

end Scraper

namespace Scraper

/-- C6: whenever the parsed document has no Water_Temperature element,
get_water_information classifies the failure as the missing-element case
(the error log preceding its first return site) and main halts at the water
check, issuing no PUT request. -/
theorem c6_missing_water_element_halts (env : Env)
    (fetch : String → FetchResult) (parse : String → List Xml)
    (net : PutRequest → NetResult) (content : String)
    (hf : fetch (woogTemperatureUrl env) = FetchResult.ok content)
    (hmiss : findIn "Water_Temperature" (parse content) = none) :
    get_water_information (parse content) = ExtractResult.missingOuter ∧
    main env fetch parse net =
      Except.ok (MainResult.waterFailed (parse content), []) := by
  have hgw : get_water_information (parse content) = ExtractResult.missingOuter := by
    simp [get_water_information, hmiss]
  exact ⟨hgw, main_waterFailed env fetch parse net content hf
    (by simp [hgw, ExtractResult.toOption])⟩

/-- C6 witnessed on the document with only an Air_Temperature element. -/
theorem c6_missing_water_element_halts_witness :
    get_water_information noWaterDoc = ExtractResult.missingOuter ∧
    main sampleEnv (constFetch "x") (constParse noWaterDoc)
      (constNet ⟨200, "ok"⟩) =
      Except.ok (MainResult.waterFailed noWaterDoc, []) :=
  c6_missing_water_element_halts sampleEnv (constFetch "x")
    (constParse noWaterDoc) (constNet ⟨200, "ok"⟩) "x" rfl rfl

/-- C7: whenever the Water_Temperature element is present and non-empty but
the text of its value element does not parse as a float, the extraction
classifies the failure as the float-ValueError case — a constructor
distinct from the missing-element one, surfaced rather than defaulted —
and main halts with no PUT request issued. -/
theorem c7_nonnumeric_value_halts (env : Env)
    (fetch : String → FetchResult) (parse : String → List Xml)
    (net : PutRequest → NetResult) (content : String)
    (wt vcs : List Xml)
    (hf : fetch (woogTemperatureUrl env) = FetchResult.ok content)
    (hfind : findIn "Water_Temperature" (parse content) = some wt)
    (hwne : wt.isEmpty = false)
    (hv : findIn "value" wt = some vcs)
    (hvne : vcs.isEmpty = false)
    (hbad : parseFloat (textOfList vcs) = none) :
    get_water_information (parse content) = ExtractResult.invalidValue ∧
    ExtractResult.invalidValue ≠ ExtractResult.missingOuter ∧
    main env fetch parse net =
      Except.ok (MainResult.waterFailed (parse content), []) := by
  have hval : get_tag_text_from_xml wt "value" parseFloat = Except.error () := by
    simp [get_tag_text_from_xml, hv, hvne, hbad]
  have hgw : get_water_information (parse content) = ExtractResult.invalidValue := by
    simp [get_water_information, hfind, hwne, hval]
  exact ⟨hgw, by decide, main_waterFailed env fetch parse net content hf
    (by simp [hgw, ExtractResult.toOption])⟩

/-- C7 witnessed on the document whose water value reads abc. -/
theorem c7_nonnumeric_value_halts_witness :
    get_water_information badValueDoc = ExtractResult.invalidValue ∧
    ExtractResult.invalidValue ≠ ExtractResult.missingOuter ∧
    main sampleEnv (constFetch "x") (constParse badValueDoc)
      (constNet ⟨200, "ok"⟩) =
      Except.ok (MainResult.waterFailed badValueDoc, []) :=
  c7_nonnumeric_value_halts sampleEnv (constFetch "x") (constParse badValueDoc)
    (constNet ⟨200, "ok"⟩) "x" badValueWaterChildren [Xml.chardata "abc"]
    rfl rfl rfl rfl rfl rfl

end Scraper

namespace Scraper

/-- C8: get_website hardcodes the success flag True, so whenever it returns
at all the flag is true; a network error at fetch time instead escapes main
as an uncaught exception; consequently the branch of main guarded by `not
success` (the fetchFailed outcome) is unreachable for every execution. -/
theorem c8_fetch_failure_branch_unreachable (env : Env)
    (fetch : String → FetchResult) (parse : String → List Xml)
    (net : PutRequest → NetResult) (c : String) (b : Bool)
    (reqs : List PutRequest) :
    (get_website fetch env = Except.ok (c, b) → b = true) ∧
    (fetch (woogTemperatureUrl env) = FetchResult.netError →
      main env fetch parse net = Except.error ()) ∧
    main env fetch parse net ≠ Except.ok (MainResult.fetchFailed c, reqs) := by
  refine ⟨?_, ?_, ?_⟩
  · intro h
    unfold get_website at h
    cases hf : fetch (woogTemperatureUrl env) with
    | ok content =>
      rw [hf] at h
      injection h with h2
      cases h2
      rfl
    | netError =>
      rw [hf] at h
      simp at h
  · intro h
    simp [main, get_website, h]
  · intro hcontra
    cases hf : fetch (woogTemperatureUrl env) with
    | netError => simp [main, get_website, hf] at hcontra
    | ok content =>
      simp only [main, get_website, hf] at hcontra
      cases hw : (get_water_information (parse content)).toOption with
      | none => simp [hw] at hcontra
      | some water =>
        cases ha : (get_air_information (parse content)).toOption with
        | none => simp [hw, ha] at hcontra
        | some air =>
          rcases hs : send_data_to_backend env net water air with ⟨⟨ropt, url⟩, rqs⟩
          cases ropt with
          | none => simp [hw, ha, hs] at hcontra
          | some r =>
            cases hok : r.ok with
            | false => simp [hw, ha, hs, hok] at hcontra
            | true => simp [hw, ha, hs, hok] at hcontra

/-- C8 witnessed: a successful fetch carries the flag true, a failing fetch
makes main die on the uncaught exception, and the concrete successful run
is not the fetchFailed outcome. -/
theorem c8_fetch_failure_branch_unreachable_witness :
    (true = true) ∧
    main sampleEnv netErrorFetch (constParse fullDoc) (constNet ⟨200, "ok"⟩) =
      Except.error () ∧
    main sampleEnv (constFetch "x") (constParse fullDoc) (constNet ⟨200, "ok"⟩) ≠
      Except.ok (MainResult.fetchFailed "x", []) :=
  ⟨(c8_fetch_failure_branch_unreachable sampleEnv (constFetch "x")
      (constParse fullDoc) (constNet ⟨200, "ok"⟩) "x" true []).1 rfl,
   (c8_fetch_failure_branch_unreachable sampleEnv netErrorFetch
      (constParse fullDoc) (constNet ⟨200, "ok"⟩) "x" true []).2.1 rfl,
   (c8_fetch_failure_branch_unreachable sampleEnv (constFetch "x")
      (constParse fullDoc) (constNet ⟨200, "ok"⟩) "x" true []).2.2⟩

/-- C9: the alerter skips sending and logs a configuration error when the
token is falsy; with a token but an empty recipient list it logs the
misconfiguration, sends nothing and still returns normally; otherwise it
sends exactly one message per recipient, each carrying the failure
reason.  In every case the function returns instead of raising. -/
theorem c9_alerter_contract (message : String) (token : Option String)
    (chatlist : List String) :
    (strFalsy token = true →
      send_telegram_alert message token chatlist =
        ([], [AlertLog.tokenMissing])) ∧
    (strFalsy token = false → chatlist = [] →
      send_telegram_alert message token chatlist =
        ([], [AlertLog.emptyChatlist])) ∧
    (strFalsy token = false →
      (send_telegram_alert message token chatlist).1 =
        chatlist.map (fun user =>
          ⟨user, "Error while executing: " ++ message⟩)) := by
  refine ⟨?_, ?_, ?_⟩
  · intro h
    simp [send_telegram_alert, h]
  · intro h h2
    subst h2
    simp [send_telegram_alert, h]
  · intro h
    simp [send_telegram_alert, h]

/-- C9 witnessed: missing token, empty chatlist, and a two-recipient send
each behave as stated. -/
theorem c9_alerter_contract_witness :
    send_telegram_alert "boom" none ["alice"] = ([], [AlertLog.tokenMissing]) ∧
    send_telegram_alert "boom" (some "tk") [] = ([], [AlertLog.emptyChatlist]) ∧
    (send_telegram_alert "boom" (some "tk") ["alice", "bob"]).1 =
      [⟨"alice", "Error while executing: boom"⟩,
       ⟨"bob", "Error while executing: boom"⟩] :=
  ⟨(c9_alerter_contract "boom" none ["alice"]).1 rfl,
   (c9_alerter_contract "boom" (some "tk") []).2.1 rfl rfl,
   (c9_alerter_contract "boom" (some "tk") ["alice", "bob"]).2.2 rfl⟩

/-- C10: the forwarded request is a function of the water reading alone:
for a positive water temperature, the request list is exactly the one
request built from the water reading, whose URL, bearer header, body
temperature and body time never mention the air reading, and the entire
result of send_data_to_backend is unchanged when the air reading is
replaced by any other. -/
theorem c10_forward_independent_of_air (env : Env)
    (net : PutRequest → NetResult) (water air1 air2 : Reading)
    (hpos : 0 < water.temperature.toRat) :
    send_data_to_backend env net water air1 =
      send_data_to_backend env net water air2 ∧
    (send_data_to_backend env net water air1).2 = [mkPutRequest env water] ∧
    (mkPutRequest env water).url = backendTargetUrl env ∧
    (mkPutRequest env water).authHeader = "Bearer " ++ pyStr env.apiKey ∧
    (mkPutRequest env water).temperature = water.temperature ∧
    (mkPutRequest env water).time = water.ts := by
  have hnp : water.temperature.nonpos = false :=
    (DecimalValue.nonpos_eq_false_iff water.temperature).mpr hpos
  refine ⟨rfl, ?_, rfl, rfl, rfl, rfl⟩
  cases hn : net (mkPutRequest env water) with
  | resp r => simp [send_data_to_backend, hnp, hn]
  | connError => simp [send_data_to_backend, hnp, hn]

/-- C10 witnessed: with the scenario water reading and two very different
air readings, the forwarder results coincide and the single request is the
scenario request. -/
theorem c10_forward_independent_of_air_witness :
    send_data_to_backend sampleEnv (constNet ⟨200, "ok"⟩) scenarioWaterReading
        scenarioAirReading =
      send_data_to_backend sampleEnv (constNet ⟨200, "ok"⟩) scenarioWaterReading
        ⟨none, ⟨-50, 0⟩⟩ ∧
    (send_data_to_backend sampleEnv (constNet ⟨200, "ok"⟩) scenarioWaterReading
        scenarioAirReading).2 =
      [mkPutRequest sampleEnv scenarioWaterReading] :=
  ⟨(c10_forward_independent_of_air sampleEnv (constNet ⟨200, "ok"⟩)
      scenarioWaterReading scenarioAirReading ⟨none, ⟨-50, 0⟩⟩
      (by norm_num [DecimalValue.toRat, scenarioWaterReading])).1,
   (c10_forward_independent_of_air sampleEnv (constNet ⟨200, "ok"⟩)
      scenarioWaterReading scenarioAirReading ⟨none, ⟨-50, 0⟩⟩
      (by norm_num [DecimalValue.toRat, scenarioWaterReading])).2.1⟩

end Scraper
